import Mathlib

/-!
Verification of the Deshkar invoice application's computational core.

The TypeScript source is shallowly embedded: JavaScript numbers are modelled
as rationals (ℚ), `Math.round` as `jsRound` (round half toward +∞), strings
as Lean `String`s, and `number | undefined` / nullable results as `Option`.
-/

/-- JavaScript `Math.round`: rounds half toward +∞, i.e. `⌊x + 1/2⌋`. -/
def jsRound (q : ℚ) : ℤ := (q + 1/2).floor

/-- Result record of `calculateGST` (src/lib/utils.ts). -/
structure GSTResult where
  cgst : ℤ
  sgst : ℤ
  igst : ℤ
  total : ℤ
deriving DecidableEq, Repr

/-- `calculateGST` from src/lib/utils.ts lines 130-139:
rounds the amount, computes `gstAmount = round(roundedAmount * gstRate / 100)`,
halves it (rounded) into CGST/SGST, uses it whole for IGST, and adds it to the
rounded amount for the total. -/
def calculateGST (amount : ℚ) (gstRate : ℚ) : GSTResult :=
  let roundedAmount : ℤ := jsRound amount
  let gstAmount : ℤ := jsRound ((roundedAmount : ℚ) * gstRate / 100)
  { cgst := jsRound ((gstAmount : ℚ) / 2)
    sgst := jsRound ((gstAmount : ℚ) / 2)
    igst := jsRound (gstAmount : ℚ)
    total := jsRound ((roundedAmount : ℚ) + (gstAmount : ℚ)) }

/-- Totals record produced by `calculateTotals` (src/components/InvoiceForm.tsx). -/
structure Totals where
  subtotal : ℤ
  cgst : ℤ
  sgst : ℤ
  igst : ℤ
  grandTotal : ℤ
deriving DecidableEq, Repr

/-- `calculateTotals` from src/components/InvoiceForm.tsx lines 266-277:
subtotal is the rounded sum of item amounts; tax comes from `calculateGST`;
the interstate flag routes the tax to IGST (zeroing CGST/SGST) or vice versa;
the grand total is `calculateGST`'s `total` either way. -/
def calculateTotals (itemAmounts : List ℚ) (gstRate : ℚ) (isInterstate : Bool) : Totals :=
  let subtotal : ℤ := jsRound itemAmounts.sum
  let gst := calculateGST (subtotal : ℚ) gstRate
  { subtotal := subtotal
    cgst := if isInterstate then 0 else gst.cgst
    sgst := if isInterstate then 0 else gst.sgst
    igst := if isInterstate then gst.igst else 0
    grandTotal := gst.total }

/-- Character for a decimal digit `d ≤ 9`. -/
def natDigitChar (d : ℕ) : Char := Char.ofNat (48 + d)

/-- Decimal digits of `n`, least significant first; `fuel` bounds recursion
depth so the definition is structural and kernel-reducible. -/
def natDigitsRevAux : ℕ → ℕ → List Char
  | 0, _ => []
  | fuel + 1, n =>
    if n < 10 then [natDigitChar n]
    else natDigitChar (n % 10) :: natDigitsRevAux fuel (n / 10)

/-- Decimal digits of `n`, least significant first. -/
def natDigitsRev (n : ℕ) : List Char := natDigitsRevAux (n + 1) n

/-- Comma-separate a little-endian digit list into groups of two. -/
def groupTwoRev : List Char → List Char
  | [] => []
  | [a] => [a]
  | [a, b] => [a, b]
  | a :: b :: c :: rest => a :: b :: ',' :: groupTwoRev (c :: rest)

/-- Indian digit grouping on a little-endian digit list: a final group of
three, then groups of two. -/
def groupIndianRev (l : List Char) : List Char :=
  if l.length ≤ 3 then l else l.take 3 ++ ',' :: groupTwoRev (l.drop 3)

/-- Indian-grouped decimal rendering of a natural number — the output of
`Intl.NumberFormat('en-IN')` with zero fraction digits. -/
def formatIndianNat (n : ℕ) : String := ⟨(groupIndianRev (natDigitsRev n)).reverse⟩

/-- en-IN rendering of an integer (negative values keep their minus sign). -/
def formatIndianInt (z : ℤ) : String :=
  if z < 0 then "-" ++ formatIndianNat z.natAbs else formatIndianNat z.toNat

/-- `formatCurrency` from src/lib/utils.ts lines 8-24, numeric branch: the
number 0 renders as the empty string, every other number as the en-IN
grouping of its rounded value. (The string branch of the source routes
parseable strings through the same path and is not needed by the claims.) -/
def formatCurrency (a : ℚ) : String :=
  if a = 0 then "" else formatIndianInt (jsRound a)

/-- `formatCompactCurrency` from src/lib/pdf-export.ts lines 7-24; its numeric
branch is textually identical to `formatCurrency`. -/
def formatCompactCurrency (a : ℚ) : String := formatCurrency a

/-- The word tables of `numberToWords` (src/lib/utils.ts lines 27-29). -/
def onesWords : List String :=
  ["", "One", "Two", "Three", "Four", "Five", "Six", "Seven", "Eight", "Nine"]

def teensWords : List String :=
  ["Ten", "Eleven", "Twelve", "Thirteen", "Fourteen", "Fifteen", "Sixteen",
   "Seventeen", "Eighteen", "Nineteen"]

def tensWords : List String :=
  ["", "", "Twenty", "Thirty", "Forty", "Fifty", "Sixty", "Seventy", "Eighty",
   "Ninety"]

/-- JavaScript `String.prototype.trim`: strips whitespace from both ends.
(Defined on the character list so it is kernel-reducible.) -/
def jsTrim (s : String) : String :=
  ⟨((s.data.dropWhile Char.isWhitespace).reverse.dropWhile Char.isWhitespace).reverse⟩

/-- `convertHundreds` from src/lib/utils.ts lines 34-55. The teens branch
returns immediately, so no ones word is appended after a teen word. -/
def convertHundreds (n : ℕ) : String :=
  let r1 := if n ≥ 100 then (onesWords.getD (n / 100) "") ++ " Hundred " else ""
  let n1 := if n ≥ 100 then n % 100 else n
  if n1 ≥ 20 then
    let r2 := r1 ++ (tensWords.getD (n1 / 10) "") ++ " "
    let n2 := n1 % 10
    if n2 > 0 then r2 ++ (onesWords.getD n2 "") ++ " " else r2
  else if n1 ≥ 10 then r1 ++ (teensWords.getD (n1 - 10) "") ++ " "
  else if n1 > 0 then r1 ++ (onesWords.getD n1 "") ++ " "
  else r1

/-- `numberToWords` from src/lib/utils.ts lines 26-81: crore/lakh/thousand
decomposition, non-zero groups suffixed with their scale words, trimmed,
`" Only"` appended. -/
def numberToWords (num : ℕ) : String :=
  if num = 0 then "Zero"
  else
    let crores := num / 10000000
    let lakhs := (num % 10000000) / 100000
    let thousandsValue := (num % 100000) / 1000
    let hundreds := num % 1000
    let result :=
      (if crores > 0 then convertHundreds crores ++ "Crore " else "") ++
      (if lakhs > 0 then convertHundreds lakhs ++ "Lakh " else "") ++
      (if thousandsValue > 0 then convertHundreds thousandsValue ++ "Thousand " else "") ++
      (if hundreds > 0 then convertHundreds hundreds else "")
    jsTrim result ++ " Only"

/-- An entry of the GST state-code table. -/
structure StateInfo where
  state : String
  code : String
deriving DecidableEq, Repr

/-- `GST_STATE_CODES` from src/lib/utils.ts lines 84-121: the static map from
2-character codes to state entries. Codes "25" and "28" have no entry. -/
def GST_STATE_CODES : List (String × StateInfo) :=
  [("01", ⟨"Jammu and Kashmir", "01"⟩),
   ("02", ⟨"Himachal Pradesh", "02"⟩),
   ("03", ⟨"Punjab", "03"⟩),
   ("04", ⟨"Chandigarh", "04"⟩),
   ("05", ⟨"Uttarakhand", "05"⟩),
   ("06", ⟨"Haryana", "06"⟩),
   ("07", ⟨"Delhi", "07"⟩),
   ("08", ⟨"Rajasthan", "08"⟩),
   ("09", ⟨"Uttar Pradesh", "09"⟩),
   ("10", ⟨"Bihar", "10"⟩),
   ("11", ⟨"Sikkim", "11"⟩),
   ("12", ⟨"Arunachal Pradesh", "12"⟩),
   ("13", ⟨"Nagaland", "13"⟩),
   ("14", ⟨"Manipur", "14"⟩),
   ("15", ⟨"Mizoram", "15"⟩),
   ("16", ⟨"Tripura", "16"⟩),
   ("17", ⟨"Meghalaya", "17"⟩),
   ("18", ⟨"Assam", "18"⟩),
   ("19", ⟨"West Bengal", "19"⟩),
   ("20", ⟨"Jharkhand", "20"⟩),
   ("21", ⟨"Odisha", "21"⟩),
   ("22", ⟨"Chhattisgarh", "22"⟩),
   ("23", ⟨"Madhya Pradesh", "23"⟩),
   ("24", ⟨"Gujarat", "24"⟩),
   ("26", ⟨"Dadra and Nagar Haveli and Daman and Diu", "26"⟩),
   ("27", ⟨"Maharashtra", "27"⟩),
   ("29", ⟨"Karnataka", "29"⟩),
   ("30", ⟨"Goa", "30"⟩),
   ("31", ⟨"Lakshadweep", "31"⟩),
   ("32", ⟨"Kerala", "32"⟩),
   ("33", ⟨"Tamil Nadu", "33"⟩),
   ("34", ⟨"Puducherry", "34"⟩),
   ("35", ⟨"Andaman and Nicobar Islands", "35"⟩),
   ("36", ⟨"Telangana", "36"⟩),
   ("37", ⟨"Andhra Pradesh", "37"⟩),
   ("38", ⟨"Ladakh", "38"⟩)]

/-- Key lookup in `GST_STATE_CODES` (the record-indexing `GST_STATE_CODES[stateCode]`). -/
def lookupStateCode (key : String) : Option StateInfo :=
  (GST_STATE_CODES.find? (fun p => p.fst == key)).map Prod.snd

/-- `getStateFromGSTIN` from src/lib/utils.ts lines 123-128: `null` for an
empty or shorter-than-2 string, otherwise a lookup of the first two
characters (`gstin.substring(0, 2)`). -/
def getStateFromGSTIN (gstin : String) : Option StateInfo :=
  if gstin = "" ∨ gstin.length < 2 then none
  else lookupStateCode (gstin.take 2)

/-- Decimal rendering of a natural number (JavaScript `Number.prototype.toString`
for naturals), kernel-reducible. -/
def natToString (n : ℕ) : String := ⟨(natDigitsRev n).reverse⟩

/-- An invoice line item (src/types/invoice.ts `InvoiceItem`). `area` is kept
in its free-text form; `ratePM` and `amount` in their numeric form. -/
structure InvoiceItem where
  id : String
  sno : ℕ
  town : String
  location : String
  hsn : String
  media : String
  size : String
  area : String
  type : String
  ratePM : ℚ
  period : String
  amount : ℚ
deriving DecidableEq, Repr

/-- src/types/invoice.ts `BillingParty`. -/
structure BillingParty where
  name : String
  address : String
  city : String
  state : String
  pincode : String
  gstin : String
  phone : Option String
  email : Option String
deriving DecidableEq, Repr

/-- src/types/invoice.ts `Invoice` — the immutable snapshot handed to export. -/
structure Invoice where
  invoiceNumber : String
  invoiceDate : String
  dueDate : Option String
  poNumber : Option String
  poDate : Option String
  displayName : Option String
  duration : Option String
  billingParty : BillingParty
  items : List InvoiceItem
  subtotal : ℤ
  cgst : ℤ
  sgst : ℤ
  igst : ℤ
  grandTotal : ℤ
  totalInWords : String
  termsAndConditions : List String
deriving DecidableEq, Repr

/-- src/types/invoice.ts `InvoiceFormData` (the fields the aggregation reads). -/
structure InvoiceFormData where
  invoiceNumber : String
  invoiceDate : String
  dueDate : String
  poNumber : String
  poDate : String
  displayName : String
  duration : String
  startDate : String
  billingParty : BillingParty
  items : List InvoiceItem
  gstRate : ℚ
  isInterstate : Bool
  termsAndConditions : String
deriving DecidableEq, Repr

/-- `formData.x || undefined`: an empty string becomes `undefined`. -/
def jsOrUndefined (s : String) : Option String := if s = "" then none else some s

/-- `generateInvoice` from src/components/InvoiceForm.tsx lines 281-300:
snapshots the form, the totals from `calculateTotals`, the grand total in
words, and the terms split into non-blank lines. -/
def generateInvoice (fd : InvoiceFormData) : Invoice :=
  let totals := calculateTotals (fd.items.map InvoiceItem.amount) fd.gstRate fd.isInterstate
  { invoiceNumber := fd.invoiceNumber
    invoiceDate := fd.invoiceDate
    dueDate := jsOrUndefined fd.dueDate
    poNumber := jsOrUndefined fd.poNumber
    poDate := jsOrUndefined fd.poDate
    displayName := jsOrUndefined fd.displayName
    duration := jsOrUndefined fd.duration
    billingParty := fd.billingParty
    items := fd.items
    subtotal := totals.subtotal
    cgst := totals.cgst
    sgst := totals.sgst
    igst := totals.igst
    grandTotal := totals.grandTotal
    totalInWords := numberToWords totals.grandTotal.toNat
    termsAndConditions :=
      ((fd.termsAndConditions.data.splitOn '\n').map (fun l => (⟨l⟩ : String))).filter
        (fun t => jsTrim t ≠ "") }

/-- The blank item template `INITIAL_ITEM` (src/components/InvoiceForm.tsx
lines 22-33) completed with an id and a sequence number. The source keeps the
not-yet-entered `ratePM` as the empty string; the numeric model uses 0. -/
def mkNewItem (id : String) (sno : ℕ) : InvoiceItem :=
  { id := id, sno := sno, town := "", location := "", hsn := "998366",
    media := "", size := "", area := "", type := "", ratePM := 0,
    period := "", amount := 0 }

/-- `addItem` from src/components/InvoiceForm.tsx lines 151-161: appends a
blank item whose sequence number is `items.length + 1`. `newId` stands for
the `Date.now()`-derived id. -/
def addItem (newId : String) (items : List InvoiceItem) : List InvoiceItem :=
  items ++ [mkNewItem newId (items.length + 1)]

/-- `removeItem` from src/components/InvoiceForm.tsx lines 163-171: drops the
item with the given id and renumbers every remaining item to its position. -/
def removeItem (id : String) (items : List InvoiceItem) : List InvoiceItem :=
  ((items.filter (fun item => item.id ≠ id)).enum).map
    (fun p => { p.snd with sno := p.fst + 1 })

/-- `copyItem` from src/components/InvoiceForm.tsx lines 173-188: appends a
copy of the item with the given id (fresh id, sequence number
`items.length + 1`), or leaves the state unchanged when the id is absent. -/
def copyItem (newId : String) (id : String) (items : List InvoiceItem) :
    List InvoiceItem :=
  match items.find? (fun item => item.id == id) with
  | none => items
  | some itemToCopy => items ++ [{ itemToCopy with id := newId, sno := items.length + 1 }]

/-- `calculateAmountFromDuration` from src/components/InvoiceForm.tsx lines
57-76. `none` stands for a missing or unparseable rate/duration (the source's
falsy check plus NaN checks after `parseFloat`/`parseInt`); a month is 30
days, the remainder is charged at the daily rate `rate / 30`. -/
def calculateAmountFromDuration (ratePM : Option ℚ) (duration : Option ℤ) : ℤ :=
  match ratePM, duration with
  | none, _ => 0
  | _, none => 0
  | some rate, some durationDays =>
    let months : ℤ := Int.fdiv durationDays 30
    let remainingDays : ℤ := Int.tmod durationDays 30
    let monthlyAmount : ℚ := (months : ℚ) * rate
    let dailyRate : ℚ := rate / 30
    let dailyAmount : ℚ := (remainingDays : ℚ) * dailyRate
    jsRound (monthlyAmount + dailyAmount)

/-- One item row of the combined PDF table (src/lib/pdf-export.ts lines
462-474): the 11 cells serial..amount, currency cells through
`formatCompactCurrency`. -/
def itemRow (item : InvoiceItem) : List String :=
  [natToString item.sno, item.town, item.location, item.hsn, item.media,
   item.size, item.area, item.type, formatCompactCurrency item.ratePM,
   item.period, formatCompactCurrency item.amount]

/-- The six fixed totals rows of the combined PDF table (src/lib/pdf-export.ts
lines 475-481): SUB TOTAL, CGST, SGST, IGST, "Less : PO" (literal 0), GRAND
TOTAL; a non-positive tax renders the literal "0". -/
def totalsRows (inv : Invoice) : List (List String) :=
  [["", "", "", "", "", "", "", "", "", "SUB TOTAL", formatCompactCurrency (inv.subtotal : ℚ)],
   ["", "", "", "", "", "", "", "", "", "Add : CGST @ 9%",
    if inv.cgst > 0 then formatCompactCurrency (inv.cgst : ℚ) else "0"],
   ["", "", "", "", "", "", "", "", "", "Add : SGST @ 9%",
    if inv.sgst > 0 then formatCompactCurrency (inv.sgst : ℚ) else "0"],
   ["", "", "", "", "", "", "", "", "", "Add : IGST @ 18%",
    if inv.igst > 0 then formatCompactCurrency (inv.igst : ℚ) else "0"],
   ["", "", "", "", "", "", "", "", "", "Less : PO", "0"],
   ["", "", "", "", "", "", "", "", "", "GRAND TOTAL", formatCompactCurrency (inv.grandTotal : ℚ)]]

/-- `tableData` from src/lib/pdf-export.ts lines 460-482: the item rows
followed by the six totals rows. -/
def tableData (inv : Invoice) : List (List String) :=
  inv.items.map itemRow ++ totalsRows inv

/-- `maxRowsFirstPage` (src/lib/pdf-export.ts line 488). -/
def maxRowsFirstPage : ℕ := 13

/-- `firstPageData = tableData.slice(0, maxRowsFirstPage)` (line 489). -/
def firstPageData (inv : Invoice) : List (List String) :=
  (tableData inv).take maxRowsFirstPage

/-- `remainingData = tableData.slice(maxRowsFirstPage)` (line 490). -/
def remainingData (inv : Invoice) : List (List String) :=
  (tableData inv).drop maxRowsFirstPage

/-- The C/F ("Carried Forward") marker, the second page with its B/F
("Brought Forward") marker, and the continuation table are emitted iff
`remainingData.length > 0` (src/lib/pdf-export.ts lines 622-651). -/
def carriedForward (inv : Invoice) : Bool :=
  0 < (remainingData inv).length

/-- A minimal invoice with `n` blank items, used to instantiate the pagination
facts at the concrete sizes named by the spec. -/
def sampleInvoice (n : ℕ) : Invoice :=
  { invoiceNumber := "INV000001"
    invoiceDate := "2025-01-01"
    dueDate := none
    poNumber := none
    poDate := none
    displayName := none
    duration := none
    billingParty :=
      { name := "", address := "", city := "", state := "", pincode := "",
        gstin := "", phone := none, email := none }
    items := (List.range n).map (fun k => mkNewItem (natToString k) (k + 1))
    subtotal := 0
    cgst := 0
    sgst := 0
    igst := 0
    grandTotal := 0
    totalInWords := "Zero"
    termsAndConditions := [] }

/-- The sequence-number invariant: the items carry `sno` values 1..N in list
order. -/
abbrev snosOK (items : List InvoiceItem) : Prop :=
  items.map InvoiceItem.sno = List.range' 1 items.length

/-- A two-item list satisfying the sequence-number invariant, used as the
concrete instance for the renumbering facts. -/
def sampleItems : List InvoiceItem := [mkNewItem "a" 1, mkNewItem "b" 2]

theorem jsRound_def (q : ℚ) : jsRound q = ⌊q + 1/2⌋ := by
  rw [jsRound, Rat.floor_def', Rat.floor_def]

/-- Evaluation rule for `jsRound` at a concrete rational. -/
theorem jsRound_eq {q : ℚ} {z : ℤ} (h₁ : (z : ℚ) ≤ q + 1/2) (h₂ : q + 1/2 < z + 1) :
    jsRound q = z := by
  rw [jsRound_def]
  exact Int.floor_eq_iff.mpr ⟨h₁, h₂⟩

theorem jsRound_intCast (n : ℤ) : jsRound (n : ℚ) = n :=
  jsRound_eq (by norm_num) (by norm_num)

theorem jsRound_zero : jsRound 0 = 0 := by
  have := jsRound_intCast 0
  simpa using this

/-- Evaluation rule for `calculateGST` at concrete inputs: supply the three
genuinely rounding steps, the two no-op roundings on integers are discharged. -/
theorem calculateGST_concrete (a r : ℚ) (ra g c : ℤ)
    (hra : jsRound a = ra)
    (hg : jsRound ((ra : ℚ) * r / 100) = g)
    (hc : jsRound ((g : ℚ) / 2) = c) :
    calculateGST a r = ⟨c, c, g, ra + g⟩ := by
  have h₁ : jsRound ((g : ℤ) : ℚ) = g := jsRound_intCast g
  have h₂ : jsRound (((ra : ℤ) : ℚ) + ((g : ℤ) : ℚ)) = ra + g := by
    have h := jsRound_intCast (ra + g)
    push_cast at h
    exact h
  simp only [calculateGST, hra, hg, hc, h₁, h₂]

theorem totalsRows_length (inv : Invoice) : (totalsRows inv).length = 6 := by
  simp [totalsRows]

theorem tableData_length (inv : Invoice) :
    (tableData inv).length = inv.items.length + 6 := by
  simp [tableData, totalsRows]

theorem tableData_drop_items (inv : Invoice) :
    (tableData inv).drop inv.items.length = totalsRows inv := by
  have h : inv.items.length = (inv.items.map itemRow).length := (List.length_map _ _).symm
  rw [tableData, h, List.drop_left]

/-- C5: `numberToWords 0 = "Zero"`; positive numbers decompose into
crore/lakh/thousand/under-1000 groups each rendered by `convertHundreds`,
non-zero groups suffixed with their scale word, zero groups skipped, the
concatenation trimmed and `" Only"` appended; a teens group 10-19 uses the
irregular teen word with no ones word appended; the four spec examples hold. -/
theorem C5_numberToWords_spec :
    numberToWords 0 = "Zero" ∧
    numberToWords 100 = "One Hundred Only" ∧
    numberToWords 150000 = "One Lakh Fifty Thousand Only" ∧
    numberToWords 12345678 =
      "One Crore Twenty Three Lakh Forty Five Thousand Six Hundred Seventy Eight Only" ∧
    (∀ k : Fin 10, convertHundreds (10 + k.val) = teensWords.getD k.val "" ++ " ") ∧
    (∀ n : ℕ,
      numberToWords (n + 1) =
        jsTrim
          ((if (n + 1) / 10000000 > 0 then
              convertHundreds ((n + 1) / 10000000) ++ "Crore " else "") ++
           (if ((n + 1) % 10000000) / 100000 > 0 then
              convertHundreds (((n + 1) % 10000000) / 100000) ++ "Lakh " else "") ++
           (if ((n + 1) % 100000) / 1000 > 0 then
              convertHundreds (((n + 1) % 100000) / 1000) ++ "Thousand " else "") ++
           (if (n + 1) % 1000 > 0 then convertHundreds ((n + 1) % 1000) else "")) ++
        " Only") := by
  refine ⟨by decide, by decide, by decide, by decide, by decide, ?_⟩
  intro n
  simp [numberToWords]

/-- C6: `getStateFromGSTIN` returns `none` exactly for inputs shorter than two
characters (including the empty string) or whose two-character prefix is not a
key of the static table (such as the absent code "25"); otherwise it returns
the table entry for the prefix; the three spec examples hold. -/
theorem C6_getStateFromGSTIN_spec :
    (∀ gstin : String,
      getStateFromGSTIN gstin =
        if gstin.length < 2 then none else lookupStateCode (gstin.take 2)) ∧
    (∀ gstin : String,
      (getStateFromGSTIN gstin = none ↔
        gstin.length < 2 ∨ lookupStateCode (gstin.take 2) = none)) ∧
    getStateFromGSTIN "22AKJPD0941N4Z8" = some ⟨"Chhattisgarh", "22"⟩ ∧
    getStateFromGSTIN "" = none ∧
    getStateFromGSTIN "2" = none ∧
    lookupStateCode "25" = none ∧
    getStateFromGSTIN "25XYZ" = none := by
  have hmain : ∀ gstin : String,
      getStateFromGSTIN gstin =
        if gstin.length < 2 then none else lookupStateCode (gstin.take 2) := by
    intro g
    by_cases h : g.length < 2
    · have : g = "" ∨ g.length < 2 := Or.inr h
      simp [getStateFromGSTIN, this, h]
    · have hne : ¬(g = "" ∨ g.length < 2) := by
        rintro (rfl | hlt)
        · exact h (by decide)
        · exact h hlt
      simp only [getStateFromGSTIN]
      rw [if_neg hne, if_neg h]
  refine ⟨hmain, ?_, by decide, by decide, by decide, by decide, by decide⟩
  intro g
  rw [hmain g]
  by_cases h : g.length < 2 <;> simp [h]

/-- C7: with a parseable rate r and duration d, `calculateAmountFromDuration`
returns `round(floor(d/30)·r + (d mod 30)·(r/30))` (a month is exactly 30
days); a missing or unparseable rate or duration yields 0; for rate 3000 and
37 days the amount is 3700. -/
theorem C7_calculateAmountFromDuration_spec :
    (∀ (r : ℚ) (d : ℤ),
      calculateAmountFromDuration (some r) (some d) =
        jsRound ((Int.fdiv d 30 : ℚ) * r + (Int.tmod d 30 : ℚ) * (r / 30))) ∧
    (∀ d, calculateAmountFromDuration none d = 0) ∧
    (∀ r, calculateAmountFromDuration r none = 0) ∧
    calculateAmountFromDuration (some 3000) (some 37) = 3700 := by
  refine ⟨fun r d => rfl, fun d => ?_, fun r => ?_, ?_⟩
  · cases d <;> rfl
  · cases r <;> rfl
  · show jsRound ((Int.fdiv 37 30 : ℚ) * 3000 + (Int.tmod 37 30 : ℚ) * (3000 / 30)) = 3700
    have h₁ : Int.fdiv 37 30 = 1 := by decide
    have h₂ : Int.tmod 37 30 = 7 := by decide
    rw [h₁, h₂]
    exact jsRound_eq (by norm_num) (by norm_num)

theorem sampleInvoice_items_length (n : ℕ) : (sampleInvoice n).items.length = n := by
  simp [sampleInvoice]

/-- C2: the combined table has itemCount + 6 rows; the first page receives the
first min(itemCount + 6, 13) of them; the Carried Forward / Brought Forward
marker pair and the continuation table are emitted iff itemCount + 6 > 13,
and the continuation table receives the remaining itemCount + 6 − 13 rows;
hence 7 items (13 rows) fill the first page with no marker, and 8 items emit
the marker pair with exactly 1 continuation row. -/
theorem C2_pagination_spec :
    (∀ inv : Invoice,
      (tableData inv).length = inv.items.length + 6 ∧
      (firstPageData inv).length = min (inv.items.length + 6) 13 ∧
      (carriedForward inv = true ↔ 13 < inv.items.length + 6) ∧
      (remainingData inv).length = inv.items.length + 6 - 13) ∧
    carriedForward (sampleInvoice 7) = false ∧
    (firstPageData (sampleInvoice 7)).length = 13 ∧
    carriedForward (sampleInvoice 8) = true ∧
    (remainingData (sampleInvoice 8)).length = 1 := by
  have hlen : ∀ inv : Invoice, (tableData inv).length = inv.items.length + 6 :=
    tableData_length
  have hfirst : ∀ inv : Invoice,
      (firstPageData inv).length = min (inv.items.length + 6) 13 := by
    intro inv
    simp [firstPageData, maxRowsFirstPage, hlen inv, Nat.min_comm]
  have hrem : ∀ inv : Invoice,
      (remainingData inv).length = inv.items.length + 6 - 13 := by
    intro inv
    simp [remainingData, maxRowsFirstPage, hlen inv]
  have hcf : ∀ inv : Invoice, (carriedForward inv = true ↔ 13 < inv.items.length + 6) := by
    intro inv
    simp only [carriedForward, hrem inv, decide_eq_true_eq]
    omega
  refine ⟨fun inv => ⟨hlen inv, hfirst inv, hcf inv, hrem inv⟩, ?_, ?_, ?_, ?_⟩
  · have := hcf (sampleInvoice 7)
    rw [sampleInvoice_items_length] at this
    simp only [Bool.eq_false_iff]
    intro hcontra
    exact absurd (this.mp hcontra) (by omega)
  · rw [hfirst, sampleInvoice_items_length]
    omega
  · exact (hcf (sampleInvoice 8)).mpr (by rw [sampleInvoice_items_length]; omega)
  · rw [hrem, sampleInvoice_items_length]

/-- C8: in the combined PDF table the rows after the item rows are exactly six
total rows in the fixed order SUB TOTAL, CGST, SGST, IGST, "Less : PO" (the
literal 0), GRAND TOTAL, whatever the interstate flag was; a zero tax value
renders the literal "0" instead of being omitted. -/
theorem C8_totals_rows_spec (inv : Invoice) :
    (tableData inv).drop inv.items.length =
      [["", "", "", "", "", "", "", "", "", "SUB TOTAL",
        formatCompactCurrency (inv.subtotal : ℚ)],
       ["", "", "", "", "", "", "", "", "", "Add : CGST @ 9%",
        if inv.cgst > 0 then formatCompactCurrency (inv.cgst : ℚ) else "0"],
       ["", "", "", "", "", "", "", "", "", "Add : SGST @ 9%",
        if inv.sgst > 0 then formatCompactCurrency (inv.sgst : ℚ) else "0"],
       ["", "", "", "", "", "", "", "", "", "Add : IGST @ 18%",
        if inv.igst > 0 then formatCompactCurrency (inv.igst : ℚ) else "0"],
       ["", "", "", "", "", "", "", "", "", "Less : PO", "0"],
       ["", "", "", "", "", "", "", "", "", "GRAND TOTAL",
        formatCompactCurrency (inv.grandTotal : ℚ)]] ∧
    (inv.cgst = 0 →
      ((tableData inv).drop inv.items.length).getD 1 [] =
        ["", "", "", "", "", "", "", "", "", "Add : CGST @ 9%", "0"]) ∧
    (inv.sgst = 0 →
      ((tableData inv).drop inv.items.length).getD 2 [] =
        ["", "", "", "", "", "", "", "", "", "Add : SGST @ 9%", "0"]) ∧
    (inv.igst = 0 →
      ((tableData inv).drop inv.items.length).getD 3 [] =
        ["", "", "", "", "", "", "", "", "", "Add : IGST @ 18%", "0"]) := by
  refine ⟨by rw [tableData_drop_items]; rfl, ?_, ?_, ?_⟩ <;>
    · intro h
      rw [tableData_drop_items]
      simp [totalsRows, h]

theorem C8_totals_rows_spec_witness :
    (sampleInvoice 0).cgst = 0 ∧ (sampleInvoice 0).sgst = 0 ∧ (sampleInvoice 0).igst = 0 ∧
    ((tableData (sampleInvoice 0)).drop (sampleInvoice 0).items.length).getD 1 [] =
      ["", "", "", "", "", "", "", "", "", "Add : CGST @ 9%", "0"] ∧
    ((tableData (sampleInvoice 0)).drop (sampleInvoice 0).items.length).getD 2 [] =
      ["", "", "", "", "", "", "", "", "", "Add : SGST @ 9%", "0"] ∧
    ((tableData (sampleInvoice 0)).drop (sampleInvoice 0).items.length).getD 3 [] =
      ["", "", "", "", "", "", "", "", "", "Add : IGST @ 18%", "0"] :=
  ⟨rfl, rfl, rfl,
   (C8_totals_rows_spec (sampleInvoice 0)).2.1 rfl,
   (C8_totals_rows_spec (sampleInvoice 0)).2.2.1 rfl,
   (C8_totals_rows_spec (sampleInvoice 0)).2.2.2 rfl⟩

/-- C10: whatever the form data (in particular whatever the user-configured
GST rate used to compute the amounts), the three tax rows of the PDF table
carry the hard-coded labels "Add : CGST @ 9%", "Add : SGST @ 9%" and
"Add : IGST @ 18%". -/
theorem C10_hardcoded_tax_labels (fd : InvoiceFormData) :
    ((tableData (generateInvoice fd)).getD (fd.items.length + 1) []).getD 9 "" =
      "Add : CGST @ 9%" ∧
    ((tableData (generateInvoice fd)).getD (fd.items.length + 2) []).getD 9 "" =
      "Add : SGST @ 9%" ∧
    ((tableData (generateInvoice fd)).getD (fd.items.length + 3) []).getD 9 "" =
      "Add : IGST @ 18%" := by
  have hlen : ((generateInvoice fd).items.map itemRow).length = fd.items.length := by
    simp [generateInvoice]
  have key : ∀ k : ℕ,
      (tableData (generateInvoice fd)).getD (fd.items.length + k) [] =
        (totalsRows (generateInvoice fd)).getD k [] := by
    intro k
    simp only [tableData]
    rw [List.getD_append_right _ _ _ _ (le_trans (le_of_eq hlen) (Nat.le_add_right _ _)),
      hlen, Nat.add_sub_cancel_left]
  exact ⟨by rw [key 1]; simp [totalsRows], by rw [key 2]; simp [totalsRows],
    by rw [key 3]; simp [totalsRows]⟩

theorem enumFrom_map_fst_add_one {α : Type} :
    ∀ (k : ℕ) (l : List α), (l.enumFrom k).map (fun p => p.fst + 1) = List.range' (k + 1) l.length
  | _, [] => rfl
  | k, _ :: xs => by
    simp only [List.enumFrom, List.map_cons, List.length_cons, List.range'_succ]
    exact congrArg (List.cons (k + 1)) (enumFrom_map_fst_add_one (k + 1) xs)

/-- C9: starting from any item list carrying sequence numbers 1..N in list
order, `addItem` and `copyItem` preserve the invariant (the new last item gets
number N+1), and `removeItem` unconditionally re-establishes it (it renumbers
every survivor by position). -/
theorem C9_renumbering_spec (newId id : String) (items : List InvoiceItem) :
    (snosOK items → snosOK (addItem newId items)) ∧
    snosOK (removeItem id items) ∧
    (snosOK items → snosOK (copyItem newId id items)) := by
  have happend : ∀ (x : InvoiceItem), x.sno = items.length + 1 →
      snosOK items → snosOK (items ++ [x]) := by
    intro x hx h
    show (items ++ [x]).map InvoiceItem.sno = List.range' 1 (items ++ [x]).length
    rw [List.map_append, h, List.length_append]
    simp only [List.map_cons, List.map_nil, List.length_cons, List.length_nil, hx]
    rw [List.range'_concat]
    simp [Nat.add_comm]
  refine ⟨happend _ rfl, ?_, ?_⟩
  · show (removeItem id items).map InvoiceItem.sno = List.range' 1 (removeItem id items).length
    have hmm : (removeItem id items).map InvoiceItem.sno =
        ((items.filter (fun item => item.id ≠ id)).enumFrom 0).map (fun p => p.fst + 1) := by
      rw [removeItem, List.enum, List.map_map]
      rfl
    have hlen : (removeItem id items).length =
        (items.filter (fun item => item.id ≠ id)).length := by
      simp [removeItem, List.enum]
    rw [hmm, hlen, enumFrom_map_fst_add_one]
  · intro h
    rw [copyItem]
    cases items.find? (fun item => item.id == id) with
    | none => exact h
    | some itemToCopy => exact happend _ rfl h

theorem C9_renumbering_spec_witness :
    snosOK sampleItems ∧
    snosOK (addItem "c" sampleItems) ∧
    snosOK (removeItem "a" sampleItems) ∧
    snosOK (copyItem "d" "b" sampleItems) :=
  ⟨by decide,
   (C9_renumbering_spec "c" "a" sampleItems).1 (by decide),
   (C9_renumbering_spec "c" "a" sampleItems).2.1,
   (C9_renumbering_spec "d" "b" sampleItems).2.2 (by decide)⟩

theorem jsRound_mono {p q : ℚ} (h : p ≤ q) : jsRound p ≤ jsRound q := by
  rw [jsRound_def, jsRound_def]
  exact Int.floor_le_floor (by linarith)

theorem jsRound_nonpos {q : ℚ} (h : q ≤ 0) : jsRound q ≤ 0 := by
  have hm := jsRound_mono h
  rwa [jsRound_zero] at hm

/-- Halving with JS rounding loses a unit exactly on odd inputs: the two
rounded halves of g sum back to g iff g is even. -/
theorem jsRound_half_sum (g : ℤ) :
    (jsRound ((g : ℚ) / 2) + jsRound ((g : ℚ) / 2) = g) ↔ 2 ∣ g := by
  rcases Int.even_or_odd g with ⟨k, hk⟩ | ⟨k, hk⟩
  · subst hk
    have h : jsRound (((k + k : ℤ) : ℚ) / 2) = k := by
      apply jsRound_eq
      · push_cast
        linarith
      · push_cast
        linarith
    rw [h]
    omega
  · subst hk
    have h : jsRound (((2 * k + 1 : ℤ) : ℚ) / 2) = k + 1 := by
      apply jsRound_eq
      · push_cast
        linarith
      · push_cast
        linarith
    rw [h]
    omega

/-- `calculateGST` on an already-integral amount: the first rounding and the
two roundings of integer quantities are identities. -/
theorem calculateGST_intCast (s : ℤ) (r : ℚ) :
    calculateGST (s : ℚ) r =
      ⟨jsRound ((jsRound ((s : ℚ) * r / 100) : ℚ) / 2),
       jsRound ((jsRound ((s : ℚ) * r / 100) : ℚ) / 2),
       jsRound ((s : ℚ) * r / 100),
       s + jsRound ((s : ℚ) * r / 100)⟩ := by
  have h₃ : jsRound ((s : ℚ) + (jsRound ((s : ℚ) * r / 100) : ℚ)) =
      s + jsRound ((s : ℚ) * r / 100) := by
    have h := jsRound_intCast (s + jsRound ((s : ℚ) * r / 100))
    push_cast at h
    exact h
  simp only [calculateGST, jsRound_intCast, h₃]

/-- `calculateTotals` with all roundings of already-integral quantities
eliminated. -/
theorem calculateTotals_eq (itemAmounts : List ℚ) (r : ℚ) (b : Bool) :
    calculateTotals itemAmounts r b =
      ⟨jsRound itemAmounts.sum,
       if b then 0
         else jsRound ((jsRound ((jsRound itemAmounts.sum : ℚ) * r / 100) : ℚ) / 2),
       if b then 0
         else jsRound ((jsRound ((jsRound itemAmounts.sum : ℚ) * r / 100) : ℚ) / 2),
       if b then jsRound ((jsRound itemAmounts.sum : ℚ) * r / 100) else 0,
       jsRound itemAmounts.sum + jsRound ((jsRound itemAmounts.sum : ℚ) * r / 100)⟩ := by
  simp only [calculateTotals, calculateGST_intCast]

theorem calculateTotals_at_150 : calculateTotals [150] 18 false = ⟨150, 14, 14, 0, 177⟩ := by
  have hsub : jsRound ([(150 : ℚ)]).sum = 150 := by
    have hsum : ([(150 : ℚ)]).sum = 150 := by norm_num
    rw [hsum]
    exact jsRound_eq (by norm_num) (by norm_num)
  have hgst : calculateGST ((150 : ℤ) : ℚ) 18 = ⟨14, 14, 27, 177⟩ := by
    have h := calculateGST_concrete 150 18 150 27 14
      (jsRound_eq (by norm_num) (by norm_num))
      (jsRound_eq (by norm_num) (by norm_num))
      (jsRound_eq (by norm_num) (by norm_num))
    simpa using h
  simp only [calculateTotals, hsub, hgst, if_neg, Bool.false_eq_true, not_false_iff]

theorem calculateGST_at_150 : calculateGST 150 18 = ⟨14, 14, 27, 177⟩ :=
  calculateGST_concrete 150 18 150 27 14
    (jsRound_eq (by norm_num) (by norm_num))
    (jsRound_eq (by norm_num) (by norm_num))
    (jsRound_eq (by norm_num) (by norm_num))

/-- C1 fails on the code: for a 150-rupee intrastate invoice at 18% the GST
amount is 27 (odd), the rounded halves are 14 each, so
grandTotal = 177 ≠ 178 = subtotal + cgst + sgst + igst, and the intrastate
route 14 + 14 = 28 differs from the interstate route 27. -/
theorem C1_counterexample :
    ((calculateTotals [150] 18 false).grandTotal ≠
      (calculateTotals [150] 18 false).subtotal + (calculateTotals [150] 18 false).cgst +
        (calculateTotals [150] 18 false).sgst + (calculateTotals [150] 18 false).igst) ∧
    (calculateGST 150 18).cgst + (calculateGST 150 18).sgst ≠ (calculateGST 150 18).igst := by
  rw [calculateTotals_at_150, calculateGST_at_150]
  exact ⟨by decide, by decide⟩

/-- C1 amended: cgst and sgst are always equal, and
grandTotal = subtotal + gstAmount with gstAmount = round(subtotal·rate/100).
Interstate, cgst = sgst = 0, igst = gstAmount, and
grandTotal = subtotal + cgst + sgst + igst holds exactly. Intrastate, igst = 0
and cgst + sgst is the sum of the two rounded halves of gstAmount, so
grandTotal = subtotal + cgst + sgst + igst holds iff gstAmount is even (for
odd gstAmount the intrastate route exceeds it by one rupee). -/
theorem C1_amended (itemAmounts : List ℚ) (gstRate : ℚ) (isInterstate : Bool) :
    (calculateTotals itemAmounts gstRate isInterstate).cgst =
      (calculateTotals itemAmounts gstRate isInterstate).sgst ∧
    (calculateTotals itemAmounts gstRate isInterstate).grandTotal =
      (calculateTotals itemAmounts gstRate isInterstate).subtotal +
        jsRound (((calculateTotals itemAmounts gstRate isInterstate).subtotal : ℚ) *
          gstRate / 100) ∧
    (if isInterstate then
      (calculateTotals itemAmounts gstRate isInterstate).cgst = 0 ∧
      (calculateTotals itemAmounts gstRate isInterstate).sgst = 0 ∧
      (calculateTotals itemAmounts gstRate isInterstate).igst =
        jsRound (((calculateTotals itemAmounts gstRate isInterstate).subtotal : ℚ) *
          gstRate / 100) ∧
      (calculateTotals itemAmounts gstRate isInterstate).grandTotal =
        (calculateTotals itemAmounts gstRate isInterstate).subtotal +
          (calculateTotals itemAmounts gstRate isInterstate).cgst +
          (calculateTotals itemAmounts gstRate isInterstate).sgst +
          (calculateTotals itemAmounts gstRate isInterstate).igst
    else
      (calculateTotals itemAmounts gstRate isInterstate).igst = 0 ∧
      ((calculateTotals itemAmounts gstRate isInterstate).grandTotal =
        (calculateTotals itemAmounts gstRate isInterstate).subtotal +
          (calculateTotals itemAmounts gstRate isInterstate).cgst +
          (calculateTotals itemAmounts gstRate isInterstate).sgst +
          (calculateTotals itemAmounts gstRate isInterstate).igst ↔
        2 ∣ jsRound (((calculateTotals itemAmounts gstRate isInterstate).subtotal : ℚ) *
          gstRate / 100))) := by
  rw [calculateTotals_eq]
  cases isInterstate with
  | true =>
    refine ⟨rfl, rfl, ?_⟩
    refine ⟨rfl, rfl, rfl, ?_⟩
    show jsRound itemAmounts.sum + jsRound ((jsRound itemAmounts.sum : ℚ) * gstRate / 100) =
      jsRound itemAmounts.sum + 0 + 0 +
        jsRound ((jsRound itemAmounts.sum : ℚ) * gstRate / 100)
    omega
  | false =>
    refine ⟨rfl, rfl, rfl, ?_⟩
    have hh := jsRound_half_sum (jsRound ((jsRound itemAmounts.sum : ℚ) * gstRate / 100))
    show jsRound itemAmounts.sum + jsRound ((jsRound itemAmounts.sum : ℚ) * gstRate / 100) =
        jsRound itemAmounts.sum +
          jsRound ((jsRound ((jsRound itemAmounts.sum : ℚ) * gstRate / 100) : ℚ) / 2) +
          jsRound ((jsRound ((jsRound itemAmounts.sum : ℚ) * gstRate / 100) : ℚ) / 2) + 0 ↔
      2 ∣ jsRound ((jsRound itemAmounts.sum : ℚ) * gstRate / 100)
    constructor
    · intro he
      exact hh.mp (by omega)
    · intro hd
      have hs := hh.mpr hd
      omega

theorem calculateGST_at_neg100 : calculateGST (-100) 18 = ⟨-9, -9, -18, -118⟩ :=
  calculateGST_concrete (-100) 18 (-100) (-18) (-9)
    (jsRound_eq (by norm_num) (by norm_num))
    (jsRound_eq (by norm_num) (by norm_num))
    (jsRound_eq (by norm_num) (by norm_num))

/-- C3 fails on the code: a negative amount does not yield zero tax — at
amount −100 and rate 18 the tax components are themselves negative
(cgst = sgst = −9, igst = −18). -/
theorem C3_counterexample :
    (calculateGST (-100) 18).cgst ≠ 0 ∧ (calculateGST (-100) 18).sgst ≠ 0 ∧
    (calculateGST (-100) 18).igst ≠ 0 ∧
    calculateGST (-100) 18 = ⟨-9, -9, -18, -118⟩ := by
  rw [calculateGST_at_neg100]
  exact ⟨by decide, by decide, by decide, rfl⟩

/-- C3 amended: `calculateGST` is total (no error conditions); an amount that
rounds to zero — in particular the amount 0 — yields zero tax and total; a
non-positive amount with a non-negative rate yields non-positive (for −100 at
18%, strictly negative) tax, not zero. -/
theorem C3_amended (a r : ℚ) :
    (jsRound a = 0 → calculateGST a r = ⟨0, 0, 0, 0⟩) ∧
    (a ≤ 0 → 0 ≤ r →
      (calculateGST a r).cgst ≤ 0 ∧ (calculateGST a r).sgst ≤ 0 ∧
      (calculateGST a r).igst ≤ 0) := by
  constructor
  · intro h
    simp only [calculateGST, h, Int.cast_zero, zero_mul, zero_div, jsRound_zero, add_zero,
      zero_add]
  · intro ha hr
    have hra : jsRound a ≤ 0 := jsRound_nonpos (by linarith)
    have h1 : ((jsRound a : ℤ) : ℚ) ≤ 0 := by exact_mod_cast hra
    have h2 : ((jsRound a : ℤ) : ℚ) * r ≤ 0 := by nlinarith
    have hx : ((jsRound a : ℤ) : ℚ) * r / 100 ≤ 0 :=
      div_nonpos_iff.mpr (Or.inr ⟨h2, by norm_num⟩)
    have hg : jsRound (((jsRound a : ℤ) : ℚ) * r / 100) ≤ 0 := jsRound_nonpos hx
    have hgq : ((jsRound (((jsRound a : ℤ) : ℚ) * r / 100) : ℤ) : ℚ) ≤ 0 := by
      exact_mod_cast hg
    have hc : jsRound (((jsRound (((jsRound a : ℤ) : ℚ) * r / 100) : ℤ) : ℚ) / 2) ≤ 0 :=
      jsRound_nonpos (div_nonpos_iff.mpr (Or.inr ⟨hgq, by norm_num⟩))
    have hi : jsRound ((jsRound (((jsRound a : ℤ) : ℚ) * r / 100) : ℤ) : ℚ) ≤ 0 :=
      jsRound_nonpos hgq
    exact ⟨hc, hc, hi⟩

theorem C3_amended_witness :
    jsRound 0 = 0 ∧ calculateGST 0 18 = ⟨0, 0, 0, 0⟩ ∧
    (0 : ℚ) ≤ 0 ∧ (0 : ℚ) ≤ 18 ∧ (calculateGST 0 18).cgst ≤ 0 :=
  ⟨jsRound_zero, (C3_amended 0 18).1 jsRound_zero, le_refl 0, by norm_num,
   ((C3_amended 0 18).2 (le_refl 0) (by norm_num)).1⟩

theorem natDigitChar_isDigit (d : ℕ) (h : d ≤ 9) : (natDigitChar d).isDigit = true := by
  interval_cases d <;> decide

theorem natDigitsRevAux_digits :
    ∀ (fuel n : ℕ), ∀ c ∈ natDigitsRevAux fuel n, c.isDigit = true
  | 0, n => by simp [natDigitsRevAux]
  | fuel + 1, n => by
    intro c hc
    simp only [natDigitsRevAux] at hc
    by_cases h : n < 10
    · rw [if_pos h] at hc
      rcases List.mem_singleton.mp hc with rfl
      exact natDigitChar_isDigit n (by omega)
    · rw [if_neg h] at hc
      rcases List.mem_cons.mp hc with h1 | h1
      · subst h1
        exact natDigitChar_isDigit (n % 10) (by omega)
      · exact natDigitsRevAux_digits fuel (n / 10) c h1

theorem natDigitsRev_ne_nil (n : ℕ) : natDigitsRev n ≠ [] := by
  simp only [natDigitsRev, natDigitsRevAux]
  by_cases h : n < 10 <;> simp [h]

theorem groupTwoRev_mem :
    ∀ (l : List Char), ∀ c ∈ groupTwoRev l, c ∈ l ∨ c = ','
  | [] => by simp [groupTwoRev]
  | [a] => by simp [groupTwoRev]
  | [a, b] => by simp [groupTwoRev]
  | a :: b :: d :: rest => by
    intro c hc
    simp only [groupTwoRev, List.mem_cons] at hc
    rcases hc with h | h | h | h
    · exact Or.inl (by simp [h])
    · exact Or.inl (by simp [h])
    · exact Or.inr h
    · rcases groupTwoRev_mem (d :: rest) c h with h2 | h2
      · refine Or.inl ?_
        simp only [List.mem_cons] at h2 ⊢
        tauto
      · exact Or.inr h2

theorem groupIndianRev_mem (l : List Char) (c : Char) (hc : c ∈ groupIndianRev l) :
    c ∈ l ∨ c = ',' := by
  simp only [groupIndianRev] at hc
  by_cases h : l.length ≤ 3
  · rw [if_pos h] at hc
    exact Or.inl hc
  · rw [if_neg h] at hc
    rcases List.mem_append.mp hc with h1 | h1
    · exact Or.inl (List.take_subset _ _ h1)
    · rcases List.mem_cons.mp h1 with h2 | h2
      · exact Or.inr h2
      · rcases groupTwoRev_mem _ c h2 with h3 | h3
        · exact Or.inl (List.drop_subset _ _ h3)
        · exact Or.inr h3

theorem groupIndianRev_ne_nil (l : List Char) (h : l ≠ []) : groupIndianRev l ≠ [] := by
  simp only [groupIndianRev]
  by_cases hl : l.length ≤ 3
  · rw [if_pos hl]
    exact h
  · rw [if_neg hl]
    simp

theorem formatIndianNat_chars (n : ℕ) :
    ∀ c ∈ (formatIndianNat n).data, (c.isDigit || c == ',') = true := by
  intro c hc
  simp only [formatIndianNat, List.mem_reverse] at hc
  rcases groupIndianRev_mem _ _ hc with h | h
  · have hd := natDigitsRevAux_digits (n + 1) n c h
    simp [hd]
  · subst h
    decide

theorem formatIndianNat_ne_empty (n : ℕ) : formatIndianNat n ≠ "" := by
  simp only [formatIndianNat]
  intro h
  have hdata : (groupIndianRev (natDigitsRev n)).reverse = [] := by
    have := congrArg String.data h
    simpa using this
  rw [List.reverse_eq_nil_iff] at hdata
  exact groupIndianRev_ne_nil _ (natDigitsRev_ne_nil n) hdata

theorem formatIndianInt_ne_empty (z : ℤ) : formatIndianInt z ≠ "" := by
  simp only [formatIndianInt]
  by_cases h : z < 0
  · rw [if_pos h]
    intro hc
    have hdata := congrArg String.data hc
    simp only [String.data_append] at hdata
    exact List.cons_ne_nil _ _ hdata
  · rw [if_neg h]
    exact formatIndianNat_ne_empty _

/-- C4 fails on the code: `formatCurrency` returns the empty string only for
the exact number 0, not whenever round(a) = 0 — at a = 3/10 (which rounds to
0) it renders "0", not "". -/
theorem C4_counterexample :
    jsRound (3/10) = 0 ∧ formatCurrency (3/10) = "0" ∧ formatCurrency (3/10) ≠ "" := by
  have h0 : jsRound ((3 : ℚ)/10) = 0 := jsRound_eq (by norm_num) (by norm_num)
  have h1 : formatCurrency ((3 : ℚ)/10) = "0" := by
    simp only [formatCurrency]
    rw [if_neg (by norm_num), h0]
    decide
  exact ⟨h0, h1, by rw [h1]; decide⟩

/-- C4 amended: `formatCurrency a` is the empty string exactly when a is the
number 0 (an a ≠ 0 that rounds to 0 renders "0"); otherwise it is the Indian
2-then-3 grouping of round(a) with no decimal portion, which consists solely
of digits and commas whenever round(a) ≥ 0 (a negative rounded value carries
a leading minus sign); 1234567 renders as "12,34,567". -/
theorem C4_amended (a : ℚ) :
    (formatCurrency a = "" ↔ a = 0) ∧
    (a ≠ 0 → formatCurrency a = formatIndianInt (jsRound a)) ∧
    (0 ≤ jsRound a →
      ((formatCurrency a).data.all (fun c => c.isDigit || c == ',')) = true) ∧
    formatCurrency 1234567 = "12,34,567" := by
  refine ⟨⟨?_, ?_⟩, ?_, ?_, ?_⟩
  · intro h
    by_contra hne
    rw [formatCurrency, if_neg hne] at h
    exact formatIndianInt_ne_empty _ h
  · intro h
    rw [formatCurrency, if_pos h]
  · intro h
    rw [formatCurrency, if_neg h]
  · intro hz
    by_cases h : a = 0
    · rw [formatCurrency, if_pos h]
      decide
    · rw [formatCurrency, if_neg h, formatIndianInt, if_neg (by omega : ¬jsRound a < 0)]
      rw [List.all_eq_true]
      intro c hc
      exact formatIndianNat_chars _ c hc
  · have hj : jsRound (1234567 : ℚ) = 1234567 := jsRound_eq (by norm_num) (by norm_num)
    rw [formatCurrency, if_neg (by norm_num), hj]
    decide

theorem C4_amended_witness :
    ((5 : ℚ) ≠ 0) ∧ (0 ≤ jsRound 5) ∧
    formatCurrency 5 = formatIndianInt (jsRound 5) ∧
    ((formatCurrency 5).data.all (fun c => c.isDigit || c == ',')) = true := by
  have h5 : jsRound (5 : ℚ) = 5 := jsRound_eq (by norm_num) (by norm_num)
  have hpos : 0 ≤ jsRound (5 : ℚ) := by
    rw [h5]
    decide
  exact ⟨by norm_num, hpos, (C4_amended 5).2.1 (by norm_num), (C4_amended 5).2.2.1 hpos⟩
